import Mathlib

/-!
Verification development for the promote_autonomy repository.

This file is a shallow embedding of the job-lifecycle core of the
repository: the shared pydantic schemas (`src/shared/.../schemas.py`),
the strategy-agent job store and approval endpoint
(`src/strategy-agent/app/services/firestore.py`,
`src/strategy-agent/app/routers/approve.py`), the task generator
(`src/strategy-agent/app/services/gemini.py`), the creative-agent job
store (`src/creative-agent/app/services/firestore.py`), the consume
endpoint (`src/creative-agent/app/routers/consume.py`) and the video
service (`src/creative-agent/app/services/video.py`).

External I/O (Gemini, Veo, Pub/Sub, Cloud Storage, the ADK runner) is
modelled by explicit oracle parameters: a call that can raise is
represented by an `Except`/`Option` value supplied to the embedded
function, exactly where the Python code awaits the corresponding SDK
call.  Stateful Firestore collections are modelled as association lists
from `event_id` to the job document, threaded explicitly.
-/

set_option autoImplicit false

namespace PromoteAutonomy

/-! ## Shared schemas (`src/shared/src/promote_autonomy_shared/schemas.py`) -/

/-- `JobStatus` enum: status values for a job in Firestore. -/
inductive JobStatus where
  | pending_approval
  | processing
  | completed
  | rejected
  | failed
deriving DecidableEq, Repr

/-- `Platform` enum: supported social media platforms. -/
inductive Platform where
  | instagram_feed
  | instagram_story
  | twitter
  | facebook
  | linkedin
  | youtube
deriving DecidableEq, Repr

/-- `BrandTone` enum. -/
inductive BrandTone where
  | professional
  | casual
  | playful
  | luxury
  | technical
deriving DecidableEq, Repr

/-- `BrandColor` model (hex code, name, usage). -/
structure BrandColor where
  hex_code : String
  name : String
  usage : String
deriving DecidableEq, Repr

/-- `BrandStyle` model (colors, tone, optional logo URL and tagline). -/
structure BrandStyle where
  colors : List BrandColor
  tone : BrandTone
  logo_url : Option String
  tagline : Option String
deriving DecidableEq, Repr

/-- `CaptionTaskConfig` model: `n` (validated 1..10 by pydantic) and `style`. -/
structure CaptionTaskConfig where
  n : Nat
  style : String
deriving DecidableEq, Repr

/-- `ImageTaskConfig` model fields. -/
structure ImageTaskConfig where
  prompt : String
  size : String
  aspect_ratio : Option String
  max_file_size_mb : Option Rat
  reference_image_url : Option String
deriving DecidableEq, Repr

/-- `VideoTaskConfig` model fields (`duration_sec` validated 4..600 by pydantic). -/
structure VideoTaskConfig where
  prompt : String
  duration_sec : Nat
  aspect_ratio : Option String
  max_file_size_mb : Option Rat
deriving DecidableEq, Repr

/-- `TaskList` model fields. -/
structure TaskList where
  goal : String
  target_platforms : List Platform
  brand_style : Option BrandStyle
  reference_image_url : Option String
  captions : Option CaptionTaskConfig
  image : Option ImageTaskConfig
  video : Option VideoTaskConfig
deriving DecidableEq, Repr

/-- Python `str.split(sep)` for a one-character separator, on the character
list of the string (structural recursion, so the kernel can evaluate it). -/
def splitOnChar (c : Char) : List Char → List (List Char)
  | [] => [[]]
  | x :: xs =>
      let r := splitOnChar c xs
      if x == c then [] :: r
      else
        match r with
        | [] => [[x]]
        | h :: t => (x :: h) :: t

/-- `^\d+$`: a non-empty string of ASCII digits. -/
def isDigitList (l : List Char) : Bool :=
  !l.isEmpty && l.all Char.isDigit

/-- Numeric value of a digit string (as parsed by Python `int`). -/
def digitsVal (l : List Char) : Nat :=
  l.foldl (fun n c => n * 10 + (c.toNat - 48)) 0

/-- `ImageTaskConfig.validate_size_format`: `^\d+x\d+$` with positive
width and height.  `true` iff pydantic accepts the `size` field. -/
def validSizeFormat (s : String) : Bool :=
  match splitOnChar 'x' s.data with
  | [w, h] =>
      isDigitList w && isDigitList h && digitsVal w > 0 && digitsVal h > 0
  | _ => false

/-- `\d+(?:\.\d+)?`: decimal number component of an aspect ratio. -/
def isDecimalList (l : List Char) : Bool :=
  match splitOnChar '.' l with
  | [a] => isDigitList a
  | [a, b] => isDigitList a && isDigitList b
  | _ => false

/-- `validate_aspect_ratio_format`: `^\d+(?:\.\d+)?:\d+(?:\.\d+)?$`. -/
def validAspectRatio (s : String) : Bool :=
  match splitOnChar ':' s.data with
  | [a, b] => isDecimalList a && isDecimalList b
  | _ => false

/-- Pydantic construction of `CaptionTaskConfig`: field bound `1 ≤ n ≤ 10`. -/
def mkCaptionTaskConfig (c : CaptionTaskConfig) : Except String CaptionTaskConfig :=
  if 1 ≤ c.n ∧ c.n ≤ 10 then .ok c
  else .error "n must be between 1 and 10"

/-- Pydantic construction of `ImageTaskConfig`: size and aspect-ratio format
validators. -/
def mkImageTaskConfig (c : ImageTaskConfig) : Except String ImageTaskConfig :=
  if !validSizeFormat c.size then .error "Invalid size format"
  else
    match c.aspect_ratio with
    | none => .ok c
    | some r => if validAspectRatio r then .ok c else .error "Invalid aspect ratio format"

/-- Pydantic construction of `VideoTaskConfig`: `4 ≤ duration_sec ≤ 600` and
aspect-ratio format validator. -/
def mkVideoTaskConfig (c : VideoTaskConfig) : Except String VideoTaskConfig :=
  if !(4 ≤ c.duration_sec ∧ c.duration_sec ≤ 600) then
    .error "duration_sec must be between 4 and 600"
  else
    match c.aspect_ratio with
    | none => .ok c
    | some r => if validAspectRatio r then .ok c else .error "Invalid aspect ratio format"

/-- Validation of an optional nested config field: absent stays absent,
present gets its field validators. -/
def validateOptConfig {α : Type} (mk : α → Except String α) :
    Option α → Except String (Option α)
  | none => .ok none
  | some c => (mk c).map some

/-- Pydantic construction of `TaskList`: field constraints
(`target_platforms` min_length 1, nested config validators) followed by the
`validate_task_list` model validator (at least one of captions/image/video). -/
def mkTaskList (goal : String) (target_platforms : List Platform)
    (brand_style : Option BrandStyle) (reference_image_url : Option String)
    (captions : Option CaptionTaskConfig) (image : Option ImageTaskConfig)
    (video : Option VideoTaskConfig) : Except String TaskList :=
  if target_platforms.isEmpty then
    .error "target_platforms must contain at least 1 item"
  else
    match validateOptConfig mkCaptionTaskConfig captions with
    | .error e => .error e
    | .ok captions =>
      match validateOptConfig mkImageTaskConfig image with
      | .error e => .error e
      | .ok image =>
        match validateOptConfig mkVideoTaskConfig video with
        | .error e => .error e
        | .ok video =>
          if captions.isNone ∧ image.isNone ∧ video.isNone then
            .error "At least one task (captions, image, or video) must be specified."
          else
            .ok ⟨goal, target_platforms, brand_style, reference_image_url,
                 captions, image, video⟩

/-- `Job` Firestore document model. -/
structure Job where
  event_id : String
  uid : String
  status : JobStatus
  task_list : TaskList
  created_at : String
  updated_at : String
  approved_at : Option String
  captions : List String
  images : List String
  videos : List String
  audit_logs : List String
  warnings : List String
  reference_images : List String
deriving DecidableEq, Repr

/-! ## Strategy-agent job store
(`src/strategy-agent/app/services/firestore.py`)

The jobs collection (the in-memory `dict` of `MockFirestoreService`, or
the Firestore `jobs` collection of `RealFirestoreService`) is modelled
as an association list keyed by `event_id`.  Mock and Real implement the
same read-check-write logic for `approve_job` (the Real one inside a
Firestore transaction); `now` stands for
`datetime.now(timezone.utc).isoformat()`. -/

/-- The jobs collection, keyed by `event_id`. -/
abbrev JobStore := List (String × Job)

/-- Document lookup by `event_id`. -/
def JobStore.get (s : JobStore) (event_id : String) : Option Job :=
  (s.find? (fun p => p.1 == event_id)).map Prod.snd

/-- Document write: replace the job stored under `event_id` (insert if absent). -/
def JobStore.setJob (s : JobStore) (event_id : String) (job : Job) : JobStore :=
  match s with
  | [] => [(event_id, job)]
  | (k, j) :: rest =>
      if k == event_id then (k, job) :: rest
      else (k, j) :: JobStore.setJob rest event_id job

/-- Error taxonomy of `approve_job`: `ValueError` "not found" (mapped to 404),
`PermissionError` (403), `ValueError` "expected pending_approval" (409). -/
inductive ApproveError where
  | notFound
  | permissionDenied
  | invalidState
deriving DecidableEq, Repr

/-- `approve_job(event_id, uid)` of both `MockFirestoreService` and
`RealFirestoreService` (the transactional body `_approve_transaction`):
lookup, ownership check, status check, then the transition to
`processing` with `approved_at = updated_at = now`. -/
def approve_job (s : JobStore) (event_id uid now : String) :
    Except ApproveError (Job × JobStore) :=
  match s.get event_id with
  | none => .error .notFound
  | some job =>
      if job.uid ≠ uid then .error .permissionDenied
      else if job.status ≠ JobStatus.pending_approval then .error .invalidState
      else
        let job' := { job with
          status := JobStatus.processing
          approved_at := some now
          updated_at := now }
        .ok (job', s.setJob event_id job')

/-- `revert_to_pending(event_id)`: `ValueError` if missing; a logged no-op if
the job is not `processing`; otherwise status back to `pending_approval`,
`approved_at` cleared, `updated_at = now`. -/
def revert_to_pending (s : JobStore) (event_id now : String) :
    Except String JobStore :=
  match s.get event_id with
  | none => .error ("Job " ++ event_id ++ " not found")
  | some job =>
      if job.status ≠ JobStatus.processing then .ok s
      else
        .ok (s.setJob event_id { job with
          status := JobStatus.pending_approval
          approved_at := none
          updated_at := now })

/-! ## Approval endpoint (`src/strategy-agent/app/routers/approve.py`)

Modelled from the Firestore `approve_job` call onward (the Firebase token
verification and uid-match steps above it are external identity checks on
request headers and out of the embedded scope).  `pubsub_service.publish_task`
is an external call, represented by a `PublishOutcome` oracle; a raised
exception during the `revert_to_pending` Firestore call (infrastructure
failure of the rollback itself) is represented by the `revertRaises`
oracle. -/

/-- Outcome of `pubsub_service.publish_task(event_id, task_list)`. -/
inductive PublishOutcome where
  | ok (message_id : String)
  | failure (err : String)
deriving DecidableEq, Repr

/-- An `HTTPException` raised by a router: status code and detail string. -/
structure HttpError where
  status : Nat
  detail : String
deriving DecidableEq, Repr

/-- Result of the `/approve` endpoint. -/
inductive ApproveResult where
  | success (event_id : String) (status : JobStatus) (published : Bool)
  | error (e : HttpError)
deriving DecidableEq, Repr

/-- Detail string of the retryable publish-failure branch
(rollback succeeded). -/
def revertedDetail : String :=
  "Failed to publish job to processing queue. " ++
  "Job has been reverted to pending_approval. Please try again."

/-- Detail string of the stuck-job branch (publish failed and rollback also
failed). -/
def stuckDetail (event_id : String) : String :=
  "CRITICAL: Failed to publish job AND failed to rollback. " ++
  "Job " ++ event_id ++ " is stuck in PROCESSING state. " ++
  "Contact system administrator for manual intervention."

/-- The `/approve` endpoint from the `approve_job` call onward: atomic
transition, then publish; on publish failure, attempt `revert_to_pending`
and report the retryable or the stuck error.  `now` is the transition
timestamp, `now2` the rollback timestamp. -/
def approveEndpoint (s : JobStore) (event_id uid now : String)
    (publish : PublishOutcome) (revertRaises : Bool) (now2 : String) :
    ApproveResult × JobStore :=
  match approve_job s event_id uid now with
  | .error .notFound =>
      (.error ⟨404, "Job " ++ event_id ++ " not found"⟩, s)
  | .error .permissionDenied =>
      (.error ⟨403, (match s.get event_id with
        | some job =>
            "User " ++ uid ++ " does not own job " ++ event_id ++
            " (owner: " ++ job.uid ++ ")"
        | none => "")⟩, s)
  | .error .invalidState =>
      (.error ⟨409, "Job " ++ event_id ++ " is not in pending_approval status. " ++
        "It may have already been processed."⟩, s)
  | .ok (_, s') =>
      match publish with
      | .ok _ => (.success event_id JobStatus.processing true, s')
      | .failure _ =>
          if revertRaises then
            (.error ⟨500, stuckDetail event_id⟩, s')
          else
            match revert_to_pending s' event_id now2 with
            | .ok s'' => (.error ⟨500, revertedDetail⟩, s'')
            | .error _ => (.error ⟨500, stuckDetail event_id⟩, s')

/-! ## Creative-agent job store
(`src/creative-agent/app/services/firestore.py`)

Both implementations are modelled over the same association-list
collection.  Python's `if captions_url:` guards are truthiness checks, so
a `None` or empty-string URL is not appended. -/

/-- `MockFirestoreService.update_job_status`: sets `status` and
`updated_at`, and appends each provided (truthy) URL with a plain Python
`list.append`. -/
def update_job_status_mock (s : JobStore) (event_id : String) (status : JobStatus)
    (captions_url image_url video_url : Option String) (now : String) :
    Except String (Job × JobStore) :=
  match s.get event_id with
  | none => .error ("Job " ++ event_id ++ " not found")
  | some job =>
      let job := { job with status := status, updated_at := now }
      let job := match captions_url with
        | some u => if u.isEmpty then job else { job with captions := job.captions ++ [u] }
        | none => job
      let job := match image_url with
        | some u => if u.isEmpty then job else { job with images := job.images ++ [u] }
        | none => job
      let job := match video_url with
        | some u => if u.isEmpty then job else { job with videos := job.videos ++ [u] }
        | none => job
      .ok (job, s.setJob event_id job)

/-- Firestore `ArrayUnion([x])`: appends `x` only if it is not already an
element of the array. -/
def arrayUnion (l : List String) (x : String) : List String :=
  if x ∈ l then l else l ++ [x]

/-- `RealFirestoreService.update_job_status`: same shape as the mock, but
each provided (truthy) URL is merged with Firestore `ArrayUnion`; the
update of a missing document raises. -/
def update_job_status_real (s : JobStore) (event_id : String) (status : JobStatus)
    (captions_url image_url video_url : Option String) (now : String) :
    Except String (Job × JobStore) :=
  match s.get event_id with
  | none => .error ("No document to update: " ++ event_id)
  | some job =>
      let job := { job with status := status, updated_at := now }
      let job := match captions_url with
        | some u => if u.isEmpty then job else { job with captions := arrayUnion job.captions u }
        | none => job
      let job := match image_url with
        | some u => if u.isEmpty then job else { job with images := arrayUnion job.images u }
        | none => job
      let job := match video_url with
        | some u => if u.isEmpty then job else { job with videos := arrayUnion job.videos u }
        | none => job
      .ok (job, s.setJob event_id job)

/-- Modelled from the spec: `add_job_warning(event_id, text)` of the
creative-agent Firestore service.  It is called by
`app/routers/consume.py` and exercised by `tests/unit/test_services.py`,
but its definition is absent from the source tree under `src/`.
Spec §4.2: "`addWarning(event_id, text) -> Job`: appends to `warnings`;
fails `NotFound` if missing." -/
def add_job_warning (s : JobStore) (event_id text : String) :
    Except String (Job × JobStore) :=
  match s.get event_id with
  | none => .error ("Job " ++ event_id ++ " not found")
  | some job =>
      let job := { job with warnings := job.warnings ++ [text] }
      .ok (job, s.setJob event_id job)

/-! ## Consume endpoint (`src/creative-agent/app/routers/consume.py`)

Modelled from the job-status check onward (OIDC token verification and
base64/JSON message decoding above it are external input decoding).
The per-kind generation+upload calls of the direct path and the ADK
coordinator run are external, represented by oracles. -/

/-- Scheme/netloc/path of `urllib.parse.urlparse`.  Only these three fields
are read by `_validate_gcs_url`. -/
structure ParsedUrl where
  scheme : String
  netloc : String
  path : String
deriving DecidableEq, Repr

/-- Split a character list at the first occurrence of `"://"`. -/
def breakScheme : List Char → Option (List Char × List Char)
  | ':' :: '/' :: '/' :: rest => some ([], rest)
  | c :: rest => (breakScheme rest).map (fun p => (c :: p.1, p.2))
  | [] => none

/-- `urllib.parse.urlparse` restricted to URLs of the shape
`scheme://netloc/path...`: the scheme (lowercased) is everything before the
first `"://"`, the netloc everything from there to the next `/`, the path the
rest.  Query/fragment splitting and scheme-character validation are not
modelled; on every input where this differs from Python's parse (no `"://"`,
empty or malformed scheme, query in the authority) both parses make
`_validate_gcs_url` reject, because either the scheme or the netloc check
fails. -/
def urlparse (url : String) : ParsedUrl :=
  match breakScheme url.data with
  | none => ⟨"", "", url⟩
  | some (schemePart, rest) =>
      ⟨String.mk (schemePart.map Char.toLower),
       String.mk (rest.takeWhile (fun c => c ≠ '/')),
       String.mk (rest.dropWhile (fun c => c ≠ '/'))⟩

/-- `endswith` on strings, via character lists (kernel-evaluable). -/
def strEndsWith (s suffix : String) : Bool :=
  suffix.data.isSuffixOf s.data

/-- `startswith` on strings, via character lists (kernel-evaluable). -/
def strStartsWith (s prefixStr : String) : Bool :=
  prefixStr.data.isPrefixOf s.data

/-- `_validate_gcs_url(url)`: scheme must be `https`, netloc must end with
`storage.googleapis.com`, path must start with `/{bucket}/` where `bucket`
is `settings.STORAGE_BUCKET` (passed here as a parameter). -/
def validate_gcs_url (bucket : String) (url : String) : Bool :=
  let p := urlparse url
  p.scheme == "https" &&
  strEndsWith p.netloc "storage.googleapis.com" &&
  strStartsWith p.path ("/" ++ bucket ++ "/")

/-- The output contract of both orchestration paths: an optional storage URL
per asset kind (the `outputs` dict keys `captions_url`, `image_url`,
`video_url`). -/
structure Outputs where
  captions_url : Option String
  image_url : Option String
  video_url : Option String
deriving DecidableEq, Repr

/-- Python `str.strip()` (drop leading and trailing whitespace). -/
def pyStrip (s : String) : String :=
  String.mk (((s.data.dropWhile Char.isWhitespace).reverse.dropWhile
    Char.isWhitespace).reverse)

/-- String-valued field lookup in a parsed JSON object (the
`key in parsed and isinstance(parsed[key], str)` test). -/
def jsonLookup (kv : List (String × String)) (k : String) : Option String :=
  (kv.find? (fun p => p.1 == k)).map Prod.snd

/-- The URL-extraction loop shared by JSON parse strategies 1 and 2 of
`_generate_assets_with_adk`: for each of the three keys, take the string
field from the parsed JSON object, `strip()` it, and accept it into the
outputs only if `_validate_gcs_url` passes.  (Strategy 3, keyed regex
extraction, gates its candidates through the same `_validate_gcs_url`
after a regex that additionally pins the literal prefix
`https://storage.googleapis.com`.) -/
def adkExtractOutputs (bucket : String) (parsed : List (String × String)) : Outputs :=
  let pick := fun (k : String) =>
    match jsonLookup parsed k with
    | some v =>
        let url := pyStrip v
        if validate_gcs_url bucket url then some url else none
    | none => none
  ⟨pick "captions_url", pick "image_url", pick "video_url"⟩

/-- Outcome of one asset kind's generate-and-upload pipeline in the direct
path (the service call plus `storage_service.upload_file`): the resulting
storage URL, or the exception it raised. -/
structure LegacyEnv where
  captionsResult : Except String String
  imageResult : Except String String
  videoResult : Except String String
deriving Repr

/-- `_generate_assets_legacy`: each requested kind's task runs (a kind whose
config is absent returns `None` without calling anything);
`asyncio.gather` is used WITHOUT `return_exceptions=True`, so if any task
raises, the exception propagates out of the whole function.  On success the
outputs dict gets a key per truthy URL. -/
def generate_assets_legacy (tl : TaskList) (env : LegacyEnv) :
    Except String Outputs := do
  let c : Option String ← match tl.captions with
    | none => pure none
    | some _ => env.captionsResult.map some
  let i : Option String ← match tl.image with
    | none => pure none
    | some _ => env.imageResult.map some
  let v : Option String ← match tl.video with
    | none => pure none
    | some _ => env.videoResult.map some
  let truthy := fun (o : Option String) =>
    o.bind (fun u => if u.isEmpty then none else some u)
  pure ⟨truthy c, truthy i, truthy v⟩

/-- Outcome of the `try` block of `_generate_assets_with_adk`: either some
exception was raised inside it (coordinator run, parsing, …), which the
function wraps into `AdkOrchestrationError cause`, or the run-and-parse
pipeline produced the given (possibly empty) outputs. -/
inductive AdkAttempt where
  | raises (cause : String)
  | returns (outs : Outputs)
deriving Repr

/-- Response of the `/consume` endpooint body: HTTP 200 with
`already_completed` / `success` / `failed`, or a raised `HTTPException`. -/
inductive ConsumeResult where
  | alreadyCompleted (event_id : String)
  | success (event_id : String) (outputs : Outputs)
  | failedAck (event_id : String) (error : String)
  | httpError (e : HttpError)
deriving DecidableEq, Repr

/-- `consume_task` from the job-status check onward: 404 if the job is
missing; `already_completed` for a COMPLETED job; 409 for any other
non-PROCESSING status; otherwise run the selected orchestration path
(`useAdk` is `should_use_adk(event_id)`), falling back from a raised
`AdkOrchestrationError` to the direct path after recording a warning
(the warning write is wrapped in `try/except`, hence non-fatal), then
mark the job COMPLETED with the produced URLs — or, if the selected
path raised, mark it FAILED and acknowledge with a `failed` status.
The mock Firestore service (plain-append `update_job_status`) is the one
wired in the test configuration and modelled here. -/
def consume_task (s : JobStore) (event_id : String) (tl : TaskList)
    (useAdk : Bool) (adk : AdkAttempt) (env : LegacyEnv) (now : String) :
    ConsumeResult × JobStore :=
  match s.get event_id with
  | none => (.httpError ⟨404, "Job " ++ event_id ++ " not found"⟩, s)
  | some job =>
      if job.status ≠ JobStatus.processing then
        if job.status = JobStatus.completed then (.alreadyCompleted event_id, s)
        else (.httpError ⟨409, "Job " ++ event_id ++ " has invalid status"⟩, s)
      else
        let attempt : Except String Outputs × JobStore :=
          if useAdk then
            match adk with
            | .returns outs => (.ok outs, s)
            | .raises cause =>
                let s1 := match add_job_warning s event_id
                    ("ADK orchestration failed, used legacy fallback: " ++ cause) with
                  | .ok (_, s') => s'
                  | .error _ => s
                (generate_assets_legacy tl env, s1)
          else
            (generate_assets_legacy tl env, s)
        match attempt with
        | (.ok outs, s1) =>
            match update_job_status_mock s1 event_id JobStatus.completed
                outs.captions_url outs.image_url outs.video_url now with
            | .ok (_, s2) => (.success event_id outs, s2)
            | .error e =>
                match update_job_status_mock s1 event_id JobStatus.failed
                    none none none now with
                | .ok (_, s2) => (.failedAck event_id e, s2)
                | .error _ => (.failedAck event_id e, s1)
        | (.error e, s1) =>
            match update_job_status_mock s1 event_id JobStatus.failed
                none none none now with
            | .ok (_, s2) => (.failedAck event_id e, s2)
            | .error _ => (.failedAck event_id e, s1)

/-! ## Task generator (`src/strategy-agent/app/services/gemini.py`,
`RealGeminiService.generate_task_list`) -/

/-- The task-list fields parsed from the Gemini JSON response
(`json.loads` of the fence-stripped response text).  `brand_style` is not
carried: the code overwrites `data["brand_style"]` with the request's brand
style before constructing the `TaskList`.  A response that fails at the
provider, times out, fails JSON decoding, or fails pydantic type coercion
is represented by `none` in the oracle below; structurally valid data that
fails a pydantic constraint fails inside `mkTaskList`. -/
structure RawTaskListData where
  goal : String
  target_platforms : List Platform
  reference_image_url : Option String
  captions : Option CaptionTaskConfig
  image : Option ImageTaskConfig
  video : Option VideoTaskConfig
deriving Repr

/-- `RealGeminiService.generate_task_list(goal, target_platforms,
brand_style, reference_analysis)`: the platform-constraint computation
(`min` over the selected platform specs) runs before the `try` block and
raises on an empty platform list; inside the `try`, the provider call and
response parsing (oracle `attempt`) either yield a validated `TaskList` or
raise, and any exception is caught and answered with the fallback
`TaskList(goal, target_platforms, brand_style, captions=CaptionTaskConfig(
n=3, style="engaging"))`.  The prompt text (where `reference_analysis` and
the constraint numbers are interpolated) only influences the oracle. -/
def generate_task_list (goal : String) (target_platforms : List Platform)
    (brand_style : Option BrandStyle) (attempt : Option RawTaskListData) :
    Except String TaskList :=
  if target_platforms.isEmpty then
    .error "min() arg is an empty sequence"
  else
    let parsed : Except String TaskList :=
      match attempt with
      | none => .error "Gemini API error"
      | some d =>
          mkTaskList d.goal d.target_platforms brand_style
            d.reference_image_url d.captions d.image d.video
    match parsed with
    | .ok tl => .ok tl
    | .error _ =>
        mkTaskList goal target_platforms brand_style none
          (some { n := 3, style := "engaging" }) none none

/-! ## Video service (`src/creative-agent/app/services/video.py`,
`RealVeoVideoService.generate_video`) -/

/-- The duration bucketing of `RealVeoVideoService.generate_video`: the
requested `duration_sec` is mapped to the nearest Veo-3-supported value
before being sent as `GenerateVideosConfig.duration_seconds`. -/
def veoRequestedDuration (duration_sec : Nat) : Nat :=
  if duration_sec ≤ 5 then 4
  else if duration_sec ≤ 7 then 6
  else 8


/-! ## Sample data (used by the concrete witnesses below) -/

/-- A sample task list requesting captions only. -/
def sampleTaskList : TaskList :=
  { goal := "Launch new feature", target_platforms := [.twitter],
    brand_style := none, reference_image_url := none,
    captions := some ⟨3, "engaging"⟩, image := none, video := none }

/-- A sample job in the given status. -/
def sampleJob (status : JobStatus) : Job :=
  { event_id := "evt-1", uid := "user-1", status := status,
    task_list := sampleTaskList, created_at := "t0", updated_at := "t0",
    approved_at := none, captions := [], images := [], videos := [],
    audit_logs := [], warnings := [], reference_images := [] }

/-- The empty outputs dict (no asset kind produced a URL). -/
def emptyOutputs : Outputs := ⟨none, none, none⟩

/-- A sample task list requesting captions and an image. -/
def tlCaptionsImage : TaskList :=
  { goal := "Complete campaign", target_platforms := [.twitter],
    brand_style := none, reference_image_url := none,
    captions := some ⟨2, "casual"⟩,
    image := some { prompt := "Product image", size := "1024x1024",
                    aspect_ratio := none, max_file_size_mb := none,
                    reference_image_url := none },
    video := none }

/-- A direct-path environment in which every kind's pipeline succeeds. -/
def allOkEnv : LegacyEnv :=
  { captionsResult := .ok "https://storage.googleapis.com/bkt/evt-1/captions.json",
    imageResult := .ok "https://storage.googleapis.com/bkt/evt-1/image.png",
    videoResult := .ok "https://storage.googleapis.com/bkt/evt-1/video.mp4" }

/-- A direct-path environment in which captions and video generation succeed
but image generation raises. -/
def envPartialFailure : LegacyEnv :=
  { captionsResult := .ok "https://storage.googleapis.com/bkt/evt-1/captions.json",
    imageResult := .error "Imagen API error",
    videoResult := .ok "https://storage.googleapis.com/bkt/evt-1/video.mp4" }

/-- A sample storage URL for a generated captions file. -/
def capUrl : String := "https://storage.googleapis.com/bkt/evt-1/captions.json"

/-- The job produced by one real-service `update_job_status` call appending
`capUrl` to a fresh processing job. -/
def jobAfterRealUpdate : Job :=
  { sampleJob .processing with
    status := JobStatus.completed, updated_at := "t1", captions := [capUrl] }

/-! ## Store lemmas -/

theorem get_setJob_self (s : JobStore) (k : String) (j : Job) :
    (JobStore.setJob s k j).get k = some j := by
  induction s with
  | nil => simp [JobStore.setJob, JobStore.get]
  | cons p rest ih =>
      obtain ⟨k', j'⟩ := p
      by_cases h : k' == k
      · simp [JobStore.setJob, JobStore.get, h]
      · simp only [JobStore.setJob, JobStore.get] at ih ⊢
        simp [List.find?, h] at ih ⊢
        exact ih

/-- `approve_job` on an owned `pending_approval` job performs the transition. -/
theorem approve_job_ok (s : JobStore) (event_id uid now : String) (job : Job)
    (h : s.get event_id = some job) (hu : job.uid = uid)
    (hp : job.status = JobStatus.pending_approval) :
    approve_job s event_id uid now =
      .ok ({ job with status := JobStatus.processing,
                      approved_at := some now, updated_at := now },
           s.setJob event_id
             { job with status := JobStatus.processing,
                        approved_at := some now, updated_at := now }) := by
  simp [approve_job, h, hu, hp]

/-- A successful creative-agent mock `update_job_status` writes back a job
with the requested status, the given `updated_at`, and untouched warnings. -/
theorem update_job_status_mock_ok (s : JobStore) (event_id : String)
    (st : JobStatus) (c i v : Option String) (now : String) (job : Job)
    (h : s.get event_id = some job) :
    ∃ job', update_job_status_mock s event_id st c i v now =
        .ok (job', s.setJob event_id job') ∧
      job'.status = st ∧ job'.warnings = job.warnings ∧ job'.updated_at = now := by
  simp only [update_job_status_mock, h]
  rcases c with _ | uc <;> rcases i with _ | ui <;> rcases v with _ | uv <;>
    simp only [] <;>
    first
      | exact ⟨_, rfl, rfl, rfl, rfl⟩
      | (split_ifs <;> exact ⟨_, rfl, rfl, rfl, rfl⟩)

/-- A pydantic-accepted `TaskList` satisfies the task-presence invariant, has
a non-empty platform list, and carries the given goal/platforms/brand. -/
theorem mkTaskList_ok_invariant (goal : String) (platforms : List Platform)
    (brand : Option BrandStyle) (ref : Option String)
    (c : Option CaptionTaskConfig) (i : Option ImageTaskConfig)
    (v : Option VideoTaskConfig) (tl : TaskList)
    (h : mkTaskList goal platforms brand ref c i v = .ok tl) :
    (tl.captions.isSome ∨ tl.image.isSome ∨ tl.video.isSome) ∧
    tl.target_platforms ≠ [] ∧ tl.goal = goal ∧
    tl.target_platforms = platforms ∧ tl.brand_style = brand := by
  by_cases hp : platforms.isEmpty
  · simp [mkTaskList, hp] at h
  · rcases hc : validateOptConfig mkCaptionTaskConfig c with e | oc <;>
      rcases hi : validateOptConfig mkImageTaskConfig i with e2 | oi <;>
      rcases hv : validateOptConfig mkVideoTaskConfig v with e3 | ov <;>
      simp [mkTaskList, hp, hc, hi, hv] at h
    split at h
    · exact absurd h (by simp)
    · rename_i hnone
      simp at h
      subst h
      refine ⟨?_, ?_, rfl, rfl, rfl⟩
      · rcases oc with _ | c2 <;> rcases oi with _ | i2 <;> rcases ov with _ | v2 <;>
          simp_all
      · intro hnil
        simp at hnil
        rw [hnil] at hp
        simp at hp

/-- The task generator's fallback `TaskList` construction succeeds whenever
the platform list is non-empty. -/
theorem mkTaskList_fallback_ok (goal : String) (platforms : List Platform)
    (brand : Option BrandStyle) (h : platforms ≠ []) :
    mkTaskList goal platforms brand none
      (some { n := 3, style := "engaging" }) none none =
      .ok { goal := goal, target_platforms := platforms, brand_style := brand,
            reference_image_url := none,
            captions := some { n := 3, style := "engaging" },
            image := none, video := none } := by
  have hp : platforms.isEmpty = false := by
    cases platforms
    · simp at h
    · rfl
  simp [mkTaskList, hp, validateOptConfig, mkCaptionTaskConfig, Except.map]

/-- `ArrayUnion` always leaves its argument an element of the array. -/
theorem arrayUnion_self_mem (l : List String) (x : String) :
    x ∈ arrayUnion l x := by
  by_cases h : x ∈ l <;> simp [arrayUnion, h]

/-- Merging the same element twice with `ArrayUnion` is the same as merging
it once. -/
theorem arrayUnion_idem (l : List String) (x : String) :
    arrayUnion (arrayUnion l x) x = arrayUnion l x := by
  by_cases h : x ∈ l <;> simp [arrayUnion, h]

/-! ## Claim theorems -/

/-- C1: `approve(event_id, uid)` fails with NotFound when no job with that
`event_id` exists; with PermissionDenied when the job's owner differs from
the caller — regardless of the job's current status (the ownership check
precedes the state check); with InvalidState when the status is not
PENDING_APPROVAL; and otherwise it sets the status to PROCESSING with
`approved_at` and `updated_at` both set to the current time, writing the
job back under the same key in the same step. -/
theorem approve_job_spec (s : JobStore) (event_id uid now : String) :
    (s.get event_id = none → approve_job s event_id uid now = .error .notFound) ∧
    (∀ job, s.get event_id = some job → job.uid ≠ uid →
      approve_job s event_id uid now = .error .permissionDenied) ∧
    (∀ job, s.get event_id = some job → job.uid = uid →
      job.status ≠ JobStatus.pending_approval →
      approve_job s event_id uid now = .error .invalidState) ∧
    (∀ job, s.get event_id = some job → job.uid = uid →
      job.status = JobStatus.pending_approval →
      approve_job s event_id uid now =
        .ok ({ job with status := JobStatus.processing,
                        approved_at := some now, updated_at := now },
             s.setJob event_id
               { job with status := JobStatus.processing,
                          approved_at := some now, updated_at := now })) := by
  refine ⟨?_, ?_, ?_, fun job h hu hp => approve_job_ok s event_id uid now job h hu hp⟩ <;>
    intros <;> simp_all [approve_job]

/-- Witness for C1: the four branches of `approve_job_spec` at concrete
stores — missing job, foreign caller on a non-pending job, wrong state,
and a successful transition. -/
theorem approve_job_spec_witness :
    approve_job [] "evt-1" "user-1" "t1" = .error .notFound ∧
    approve_job [("evt-1", sampleJob .processing)] "evt-1" "intruder" "t1" =
      .error .permissionDenied ∧
    approve_job [("evt-1", sampleJob .processing)] "evt-1" "user-1" "t1" =
      .error .invalidState ∧
    approve_job [("evt-1", sampleJob .pending_approval)] "evt-1" "user-1" "t1" =
      .ok ({ sampleJob .pending_approval with
              status := JobStatus.processing,
              approved_at := some "t1", updated_at := "t1" },
           [("evt-1", { sampleJob .pending_approval with
              status := JobStatus.processing,
              approved_at := some "t1", updated_at := "t1" })]) :=
  ⟨(approve_job_spec [] "evt-1" "user-1" "t1").1 rfl,
   (approve_job_spec _ "evt-1" "intruder" "t1").2.1 _ rfl (by decide),
   (approve_job_spec _ "evt-1" "user-1" "t1").2.2.1 _ rfl rfl (by decide),
   (approve_job_spec _ "evt-1" "user-1" "t1").2.2.2 _ rfl rfl rfl⟩

/-- C2: in the approval workflow, when the publish step fails after the
PENDING_APPROVAL→PROCESSING transition already succeeded, the endpoint
attempts `revert_to_pending`; if the revert succeeds the caller receives
the retryable "reverted, please try again" error and the job is back in
PENDING_APPROVAL; if the revert also fails the caller receives the
CRITICAL stuck-in-PROCESSING error and the job stays in PROCESSING; the
two error details are distinguishable (different messages). -/
theorem approveEndpoint_rollback_spec (s : JobStore) (event_id uid now now2 : String)
    (job : Job) (err : String)
    (h : s.get event_id = some job) (hu : job.uid = uid)
    (hp : job.status = JobStatus.pending_approval) :
    (approveEndpoint s event_id uid now (.failure err) false now2).1 =
      .error ⟨500, revertedDetail⟩ ∧
    ((approveEndpoint s event_id uid now (.failure err) false now2).2.get
        event_id).map Job.status = some JobStatus.pending_approval ∧
    (approveEndpoint s event_id uid now (.failure err) true now2).1 =
      .error ⟨500, stuckDetail event_id⟩ ∧
    ((approveEndpoint s event_id uid now (.failure err) true now2).2.get
        event_id).map Job.status = some JobStatus.processing ∧
    revertedDetail ≠ stuckDetail event_id := by
  have happ := approve_job_ok s event_id uid now job h hu hp
  have hne : revertedDetail ≠ stuckDetail event_id := by
    intro hEq
    have h1 : revertedDetail.data.head? = some 'F' := rfl
    have h2 : (stuckDetail event_id).data.head? = some 'C' := rfl
    rw [hEq, h2] at h1
    cases h1
  refine ⟨?_, ?_, ?_, ?_, hne⟩
  · simp [approveEndpoint, happ, revert_to_pending, get_setJob_self]
  · simp [approveEndpoint, happ, revert_to_pending, get_setJob_self]
  · simp [approveEndpoint, happ]
  · simp [approveEndpoint, happ, get_setJob_self]

/-- Witness for C2: both publish-failure branches on a concrete
pending-approval job. -/
theorem approveEndpoint_rollback_spec_witness :
    (approveEndpoint [("evt-1", sampleJob .pending_approval)] "evt-1" "user-1"
        "t1" (.failure "boom") false "t2").1 = .error ⟨500, revertedDetail⟩ ∧
    ((approveEndpoint [("evt-1", sampleJob .pending_approval)] "evt-1" "user-1"
        "t1" (.failure "boom") false "t2").2.get "evt-1").map Job.status =
      some JobStatus.pending_approval ∧
    (approveEndpoint [("evt-1", sampleJob .pending_approval)] "evt-1" "user-1"
        "t1" (.failure "boom") true "t2").1 = .error ⟨500, stuckDetail "evt-1"⟩ ∧
    ((approveEndpoint [("evt-1", sampleJob .pending_approval)] "evt-1" "user-1"
        "t1" (.failure "boom") true "t2").2.get "evt-1").map Job.status =
      some JobStatus.processing ∧
    revertedDetail ≠ stuckDetail "evt-1" :=
  approveEndpoint_rollback_spec _ "evt-1" "user-1" "t1" "t2"
    (sampleJob .pending_approval) "boom" rfl rfl rfl

/-- C3: a `/consume` request that passes message decoding gets a 404 error
when the referenced job is missing (never a silent success); an
`already_completed` success, with the store untouched, when the job is
COMPLETED — so delivering the same message twice returns
`already_completed` both times and appends nothing to
`captions`/`images`/`videos`; and a 409 InvalidState error when the
status is neither PROCESSING nor COMPLETED. -/
theorem consume_task_state_check_spec (s : JobStore) (event_id : String)
    (tl : TaskList) (useAdk : Bool) (adk : AdkAttempt) (env : LegacyEnv)
    (now : String) :
    (s.get event_id = none →
      consume_task s event_id tl useAdk adk env now =
        (.httpError ⟨404, "Job " ++ event_id ++ " not found"⟩, s)) ∧
    (∀ job, s.get event_id = some job → job.status = JobStatus.completed →
      consume_task s event_id tl useAdk adk env now =
        (.alreadyCompleted event_id, s)) ∧
    (∀ job, s.get event_id = some job → job.status = JobStatus.completed →
      consume_task (consume_task s event_id tl useAdk adk env now).2
          event_id tl useAdk adk env now = (.alreadyCompleted event_id, s)) ∧
    (∀ job, s.get event_id = some job → job.status ≠ JobStatus.processing →
      job.status ≠ JobStatus.completed →
      consume_task s event_id tl useAdk adk env now =
        (.httpError ⟨409, "Job " ++ event_id ++ " has invalid status"⟩, s)) := by
  refine ⟨?_, ?_, ?_, ?_⟩ <;> intros <;> simp_all [consume_task]

/-- Witness for C3: missing job, one and two deliveries to a COMPLETED job,
and a job in REJECTED state, on concrete stores. -/
theorem consume_task_state_check_spec_witness :
    consume_task [] "evt-1" sampleTaskList false (.returns emptyOutputs)
      allOkEnv "t1" =
      (.httpError ⟨404, "Job evt-1 not found"⟩, []) ∧
    consume_task [("evt-1", sampleJob .completed)] "evt-1" sampleTaskList false
      (.returns emptyOutputs) allOkEnv "t1" =
      (.alreadyCompleted "evt-1", [("evt-1", sampleJob .completed)]) ∧
    consume_task (consume_task [("evt-1", sampleJob .completed)] "evt-1"
        sampleTaskList false (.returns emptyOutputs) allOkEnv "t1").2 "evt-1"
        sampleTaskList false (.returns emptyOutputs) allOkEnv "t1" =
      (.alreadyCompleted "evt-1", [("evt-1", sampleJob .completed)]) ∧
    consume_task [("evt-1", sampleJob .rejected)] "evt-1" sampleTaskList false
      (.returns emptyOutputs) allOkEnv "t1" =
      (.httpError ⟨409, "Job evt-1 has invalid status"⟩,
       [("evt-1", sampleJob .rejected)]) :=
  ⟨(consume_task_state_check_spec [] "evt-1" sampleTaskList false
      (.returns emptyOutputs) allOkEnv "t1").1 rfl,
   (consume_task_state_check_spec _ "evt-1" sampleTaskList false
      (.returns emptyOutputs) allOkEnv "t1").2.1 _ rfl rfl,
   (consume_task_state_check_spec _ "evt-1" sampleTaskList false
      (.returns emptyOutputs) allOkEnv "t1").2.2.1 _ rfl rfl,
   (consume_task_state_check_spec _ "evt-1" sampleTaskList false
      (.returns emptyOutputs) allOkEnv "t1").2.2.2 _ rfl (by decide) (by decide)⟩

/-- C4 counterexample: the claim says a failing asset kind does not affect
the others (each kind contributes its URL or is simply absent) and that
the job transitions to FAILED only when NO kind succeeds.  On the code, a
direct-path run whose captions pipeline succeeds while the image pipeline
raises: the whole attempt fails (`asyncio.gather` is called without
`return_exceptions=True`, so the exception propagates), the succeeding
captions URL is not recorded, and the job is marked FAILED even though
one kind succeeded. -/
theorem consume_direct_partial_failure_counterexample :
    envPartialFailure.captionsResult =
      .ok "https://storage.googleapis.com/bkt/evt-1/captions.json" ∧
    (consume_task [("evt-1", sampleJob .processing)] "evt-1" tlCaptionsImage
        false (.returns emptyOutputs) envPartialFailure "t1").1 =
      .failedAck "evt-1" "Imagen API error" ∧
    ((consume_task [("evt-1", sampleJob .processing)] "evt-1" tlCaptionsImage
        false (.returns emptyOutputs) envPartialFailure "t1").2.get "evt-1").map
      Job.status = some JobStatus.failed ∧
    ((consume_task [("evt-1", sampleJob .processing)] "evt-1" tlCaptionsImage
        false (.returns emptyOutputs) envPartialFailure "t1").2.get "evt-1").map
      Job.captions = some [] :=
  ⟨rfl, by decide, by decide, by decide⟩

/-- C4 (amended): in the direct (parallel) path, the attempt fails exactly
when some requested kind's generation raises — in which case the whole
attempt raises, no URL (not even a succeeding kind's) is recorded, and
the job transitions to FAILED; only when every requested kind succeeds
does the job complete, with each requested kind contributing its (truthy)
URL and each unrequested kind absent from the outputs. -/
theorem consume_direct_path_spec (s : JobStore) (event_id : String)
    (tl : TaskList) (adk : AdkAttempt) (env : LegacyEnv) (now : String)
    (job : Job) (h : s.get event_id = some job)
    (hp : job.status = JobStatus.processing) :
    ((∃ e, generate_assets_legacy tl env = .error e) ↔
      ((tl.captions.isSome ∧ ∃ e, env.captionsResult = .error e) ∨
       (tl.image.isSome ∧ ∃ e, env.imageResult = .error e) ∨
       (tl.video.isSome ∧ ∃ e, env.videoResult = .error e))) ∧
    (∀ e, generate_assets_legacy tl env = .error e →
      (consume_task s event_id tl false adk env now).1 = .failedAck event_id e ∧
      ((consume_task s event_id tl false adk env now).2.get event_id).map
        Job.status = some JobStatus.failed ∧
      ((consume_task s event_id tl false adk env now).2.get event_id).map
        Job.captions = some job.captions ∧
      ((consume_task s event_id tl false adk env now).2.get event_id).map
        Job.images = some job.images ∧
      ((consume_task s event_id tl false adk env now).2.get event_id).map
        Job.videos = some job.videos) ∧
    (∀ outs, generate_assets_legacy tl env = .ok outs →
      (consume_task s event_id tl false adk env now).1 = .success event_id outs ∧
      ((consume_task s event_id tl false adk env now).2.get event_id).map
        Job.status = some JobStatus.completed) ∧
    (∀ outs, generate_assets_legacy tl env = .ok outs →
      (tl.captions = none → outs.captions_url = none) ∧
      (∀ u, tl.captions.isSome → env.captionsResult = .ok u →
        outs.captions_url = if u.isEmpty then none else some u) ∧
      (tl.image = none → outs.image_url = none) ∧
      (∀ u, tl.image.isSome → env.imageResult = .ok u →
        outs.image_url = if u.isEmpty then none else some u) ∧
      (tl.video = none → outs.video_url = none) ∧
      (∀ u, tl.video.isSome → env.videoResult = .ok u →
        outs.video_url = if u.isEmpty then none else some u)) := by
  obtain ⟨g, ps, bs, ri, oc, oi, ov⟩ := tl
  obtain ⟨ec, ei, ev⟩ := env
  refine ⟨?_, ?_, ?_, ?_⟩
  · cases oc <;> cases oi <;> cases ov <;> cases ec <;> cases ei <;> cases ev <;>
      simp [generate_assets_legacy, Except.map, Except.bind, bind, Except.instMonad,
        Functor.map, Except.pure, pure]
  · intro e he
    obtain ⟨job', hupd, hst, hw, hup⟩ :=
      update_job_status_mock_ok s event_id JobStatus.failed none none none now job h
    have hcap : job'.captions = job.captions := by
      simp [update_job_status_mock, h] at hupd
      simp [← hupd.1]
    have himg : job'.images = job.images := by
      simp [update_job_status_mock, h] at hupd
      simp [← hupd.1]
    have hvid : job'.videos = job.videos := by
      simp [update_job_status_mock, h] at hupd
      simp [← hupd.1]
    simp [consume_task, h, hp, he, hupd, get_setJob_self, hst, hcap, himg, hvid,
      Except.map]
  · intro outs houts
    obtain ⟨job', hupd, hst, hw, hup⟩ :=
      update_job_status_mock_ok s event_id JobStatus.completed outs.captions_url
        outs.image_url outs.video_url now job h
    simp [consume_task, h, hp, houts, hupd, get_setJob_self, hst, Except.map]
  · intro outs houts
    cases oc <;> cases oi <;> cases ov <;> cases ec <;> cases ei <;> cases ev <;>
      simp_all [generate_assets_legacy, Except.map, Except.bind, bind,
        Except.instMonad, Functor.map, Except.pure, pure] <;> simp_all [← houts]

/-- Witness for C4 (amended): with every kind succeeding, a concrete
captions+image job completes with both URLs in the outputs. -/
theorem consume_direct_path_spec_witness :
    (consume_task [("evt-1", sampleJob .processing)] "evt-1" tlCaptionsImage
        false (.returns emptyOutputs) allOkEnv "t1").1 =
      .success "evt-1"
        ⟨some "https://storage.googleapis.com/bkt/evt-1/captions.json",
         some "https://storage.googleapis.com/bkt/evt-1/image.png", none⟩ ∧
    ((consume_task [("evt-1", sampleJob .processing)] "evt-1" tlCaptionsImage
        false (.returns emptyOutputs) allOkEnv "t1").2.get "evt-1").map
      Job.status = some JobStatus.completed :=
  (consume_direct_path_spec [("evt-1", sampleJob .processing)] "evt-1"
      tlCaptionsImage (.returns emptyOutputs) allOkEnv "t1"
      (sampleJob .processing) rfl rfl).2.2.1 _ rfl

/-- C5 counterexample: the claim says an orchestrated run that produces zero
usable URLs signals "orchestration failed" and triggers the direct-path
fallback with a warning.  On the code, an ADK run that returns without
raising but yields an empty outputs dict is treated as a success: the job
is marked COMPLETED with no assets and no warning, and the direct path
(here poised to succeed) is never tried. -/
theorem consume_adk_empty_result_counterexample :
    (consume_task [("evt-1", sampleJob .processing)] "evt-1" tlCaptionsImage
        true (.returns emptyOutputs) allOkEnv "t1").1 =
      .success "evt-1" emptyOutputs ∧
    ((consume_task [("evt-1", sampleJob .processing)] "evt-1" tlCaptionsImage
        true (.returns emptyOutputs) allOkEnv "t1").2.get "evt-1").map
      Job.status = some JobStatus.completed ∧
    ((consume_task [("evt-1", sampleJob .processing)] "evt-1" tlCaptionsImage
        true (.returns emptyOutputs) allOkEnv "t1").2.get "evt-1").map
      Job.warnings = some [] ∧
    ((consume_task [("evt-1", sampleJob .processing)] "evt-1" tlCaptionsImage
        true (.returns emptyOutputs) allOkEnv "t1").2.get "evt-1").map
      Job.captions = some [] :=
  ⟨by decide, by decide, by decide, by decide⟩

/-- C5 (amended): when the orchestrated path raises, it signals the
distinguishable `AdkOrchestrationError` and the workflow automatically
retries via the direct path, first recording a job warning naming the
fallback and its underlying cause; the job reaches COMPLETED when the
direct path succeeds (and FAILED, with the warning still recorded, when
the direct path also fails).  A zero-URL orchestrated result, however, is
returned as a success without fallback (see the counterexample). -/
theorem consume_adk_fallback_spec (s : JobStore) (event_id : String)
    (tl : TaskList) (env : LegacyEnv) (now cause : String) (job : Job)
    (h : s.get event_id = some job) (hp : job.status = JobStatus.processing) :
    (∀ outs, generate_assets_legacy tl env = .ok outs →
      (consume_task s event_id tl true (.raises cause) env now).1 =
        .success event_id outs ∧
      ((consume_task s event_id tl true (.raises cause) env now).2.get
        event_id).map Job.status = some JobStatus.completed ∧
      ((consume_task s event_id tl true (.raises cause) env now).2.get
        event_id).map Job.warnings =
        some (job.warnings ++
          ["ADK orchestration failed, used legacy fallback: " ++ cause])) ∧
    (∀ e, generate_assets_legacy tl env = .error e →
      (consume_task s event_id tl true (.raises cause) env now).1 =
        .failedAck event_id e ∧
      ((consume_task s event_id tl true (.raises cause) env now).2.get
        event_id).map Job.status = some JobStatus.failed ∧
      ((consume_task s event_id tl true (.raises cause) env now).2.get
        event_id).map Job.warnings =
        some (job.warnings ++
          ["ADK orchestration failed, used legacy fallback: " ++ cause])) := by
  have hw1 : add_job_warning s event_id
      ("ADK orchestration failed, used legacy fallback: " ++ cause) =
      .ok ({ job with warnings := job.warnings ++
          ["ADK orchestration failed, used legacy fallback: " ++ cause] },
        s.setJob event_id { job with warnings := job.warnings ++
          ["ADK orchestration failed, used legacy fallback: " ++ cause] }) := by
    simp [add_job_warning, h]
  constructor
  · intro outs houts
    obtain ⟨job', hupd, hst, hwarn, hup⟩ :=
      update_job_status_mock_ok
        (s.setJob event_id { job with warnings := job.warnings ++
          ["ADK orchestration failed, used legacy fallback: " ++ cause] })
        event_id JobStatus.completed outs.captions_url outs.image_url
        outs.video_url now _ (get_setJob_self s event_id _)
    simp at hwarn
    rw [hp] at hw1 hupd
    simp [consume_task, h, hp, hw1, houts, hupd, get_setJob_self, hst, hwarn,
      Except.map]
  · intro e he
    obtain ⟨job', hupd, hst, hwarn, hup⟩ :=
      update_job_status_mock_ok
        (s.setJob event_id { job with warnings := job.warnings ++
          ["ADK orchestration failed, used legacy fallback: " ++ cause] })
        event_id JobStatus.failed none none none now _
        (get_setJob_self s event_id _)
    simp at hwarn
    rw [hp] at hw1 hupd
    simp [consume_task, h, hp, hw1, he, hupd, get_setJob_self, hst, hwarn,
      Except.map]

/-- Witness for C5 (amended): a raising ADK run on a concrete processing job
falls back to the direct path, completes the job, and records the warning
naming the fallback and the cause. -/
theorem consume_adk_fallback_spec_witness :
    (consume_task [("evt-1", sampleJob .processing)] "evt-1" tlCaptionsImage
        true (.raises "ADK coordinator crashed") allOkEnv "t1").1 =
      .success "evt-1"
        ⟨some "https://storage.googleapis.com/bkt/evt-1/captions.json",
         some "https://storage.googleapis.com/bkt/evt-1/image.png", none⟩ ∧
    ((consume_task [("evt-1", sampleJob .processing)] "evt-1" tlCaptionsImage
        true (.raises "ADK coordinator crashed") allOkEnv "t1").2.get
      "evt-1").map Job.status = some JobStatus.completed ∧
    ((consume_task [("evt-1", sampleJob .processing)] "evt-1" tlCaptionsImage
        true (.raises "ADK coordinator crashed") allOkEnv "t1").2.get
      "evt-1").map Job.warnings =
      some ["ADK orchestration failed, used legacy fallback: ADK coordinator crashed"] :=
  (consume_adk_fallback_spec [("evt-1", sampleJob .processing)] "evt-1"
      tlCaptionsImage allOkEnv "t1" "ADK coordinator crashed"
      (sampleJob .processing) rfl rfl).1 _ rfl

/-- C6: a `TaskList` with captions, image and video all absent is rejected at
construction; every pydantic-accepted `TaskList` has at least one of the
three present and a non-empty `target_platforms`; every `TaskList` the
task generator returns — whichever oracle outcome, including the
error-fallback path — satisfies the same invariant; and the fallback
itself succeeds with a captions config on any non-empty platform list. -/
theorem taskList_invariant_spec :
    (∀ goal platforms brand ref,
      ∃ e, mkTaskList goal platforms brand ref none none none = .error e) ∧
    (∀ goal platforms brand ref c i v tl,
      mkTaskList goal platforms brand ref c i v = .ok tl →
      (tl.captions.isSome ∨ tl.image.isSome ∨ tl.video.isSome) ∧
      tl.target_platforms ≠ []) ∧
    (∀ goal platforms brand attempt tl,
      generate_task_list goal platforms brand attempt = .ok tl →
      (tl.captions.isSome ∨ tl.image.isSome ∨ tl.video.isSome) ∧
      tl.target_platforms ≠ []) ∧
    (∀ goal platforms brand, platforms ≠ [] →
      ∃ tl, generate_task_list goal platforms brand none = .ok tl ∧
        tl.captions.isSome ∧ tl.target_platforms = platforms) := by
  refine ⟨?_, ?_, ?_, ?_⟩
  · intro goal platforms brand ref
    by_cases hp : platforms.isEmpty <;> simp [mkTaskList, hp, validateOptConfig]
  · intro goal platforms brand ref c i v tl h
    exact ⟨(mkTaskList_ok_invariant goal platforms brand ref c i v tl h).1,
           (mkTaskList_ok_invariant goal platforms brand ref c i v tl h).2.1⟩
  · intro goal platforms brand attempt tl h
    by_cases hp : platforms.isEmpty
    · simp [generate_task_list, hp] at h
    · rcases attempt with _ | d
      · simp only [generate_task_list, hp, Bool.false_eq_true, if_false] at h
        exact ⟨(mkTaskList_ok_invariant _ _ _ _ _ _ _ _ h).1,
               (mkTaskList_ok_invariant _ _ _ _ _ _ _ _ h).2.1⟩
      · rcases hd : mkTaskList d.goal d.target_platforms brand
            d.reference_image_url d.captions d.image d.video with e | tl2
        · simp only [generate_task_list, hp, Bool.false_eq_true, if_false,
            hd] at h
          exact ⟨(mkTaskList_ok_invariant _ _ _ _ _ _ _ _ h).1,
                 (mkTaskList_ok_invariant _ _ _ _ _ _ _ _ h).2.1⟩
        · simp only [generate_task_list, hp, Bool.false_eq_true, if_false,
            hd] at h
          simp at h
          subst h
          exact ⟨(mkTaskList_ok_invariant _ _ _ _ _ _ _ _ hd).1,
                 (mkTaskList_ok_invariant _ _ _ _ _ _ _ _ hd).2.1⟩
  · intro goal platforms brand hne
    have hp : platforms.isEmpty = false := by
      cases platforms
      · simp at hne
      · rfl
    refine ⟨{ goal := goal, target_platforms := platforms, brand_style := brand,
              reference_image_url := none,
              captions := some { n := 3, style := "engaging" },
              image := none, video := none }, ?_, rfl, rfl⟩
    simp [generate_task_list, hp, mkTaskList_fallback_ok goal platforms brand hne]

/-- Witness for C6: at concrete inputs — the all-absent construction fails,
a concrete accepted task list satisfies the invariant, and the generator's
fallback run produces a captions-bearing task list. -/
theorem taskList_invariant_spec_witness :
    (∃ e, mkTaskList "Launch" [.twitter] none none none none none = .error e) ∧
    ((sampleTaskList.captions.isSome ∨ sampleTaskList.image.isSome ∨
        sampleTaskList.video.isSome) ∧
      sampleTaskList.target_platforms ≠ []) ∧
    (∃ tl, generate_task_list "Launch" [.twitter] none none = .ok tl ∧
      tl.captions.isSome ∧ tl.target_platforms = [.twitter]) :=
  ⟨(taskList_invariant_spec).1 "Launch" [.twitter] none none,
   (taskList_invariant_spec).2.1 "Launch new feature" [.twitter] none none
     (some ⟨3, "engaging"⟩) none none sampleTaskList rfl,
   (taskList_invariant_spec).2.2.2 "Launch" [.twitter] none (by decide)⟩

/-- C7: for every goal, non-empty platform list and optional brand style,
whenever the provider call or its parsing fails (the oracle is `none`) or
the parsed data fails `TaskList` validation, `generate_task_list` does not
propagate the error: it returns the fallback `TaskList` carrying the
original goal, the original `target_platforms`, the brand style, and the
default 3-caption config. -/
theorem generate_task_list_fallback_spec (goal : String)
    (platforms : List Platform) (brand : Option BrandStyle)
    (attempt : Option RawTaskListData) (hne : platforms ≠ [])
    (hfail : attempt = none ∨ ∃ d e, attempt = some d ∧
      mkTaskList d.goal d.target_platforms brand d.reference_image_url
        d.captions d.image d.video = .error e) :
    generate_task_list goal platforms brand attempt =
      .ok { goal := goal, target_platforms := platforms, brand_style := brand,
            reference_image_url := none,
            captions := some { n := 3, style := "engaging" },
            image := none, video := none } := by
  have hp : platforms.isEmpty = false := by
    cases platforms
    · simp at hne
    · rfl
  rcases hfail with rfl | ⟨d, e, rfl, hd⟩
  · simp [generate_task_list, hp, mkTaskList_fallback_ok goal platforms brand hne]
  · simp [generate_task_list, hp, hd,
      mkTaskList_fallback_ok goal platforms brand hne]

/-- Witness for C7: a provider failure on a concrete two-platform request
yields the fallback task list with the original goal and platforms and a
3-caption config. -/
theorem generate_task_list_fallback_spec_witness :
    generate_task_list "Announce launch" [.twitter, .linkedin] none none =
      .ok { goal := "Announce launch",
            target_platforms := [.twitter, .linkedin], brand_style := none,
            reference_image_url := none,
            captions := some { n := 3, style := "engaging" },
            image := none, video := none } :=
  generate_task_list_fallback_spec "Announce launch" [.twitter, .linkedin]
    none none (by decide) (.inl rfl)

/-- C8 counterexample: the claim says calling `update_job_status` twice with
the same inputs leaves the job as after one call, with no duplicate
entries.  On the mock implementation (plain Python `list.append`), a
second call with the same captions URL appends a duplicate: one call
yields `[capUrl]`, two calls yield `[capUrl, capUrl]`. -/
theorem update_job_status_mock_duplicate_counterexample :
    (update_job_status_mock [("evt-1", sampleJob .processing)] "evt-1"
        JobStatus.completed (some capUrl) none none "t1").map
      (fun p => p.1.captions) = .ok [capUrl] ∧
    (Except.bind
        (update_job_status_mock [("evt-1", sampleJob .processing)] "evt-1"
          JobStatus.completed (some capUrl) none none "t1")
        (fun p => update_job_status_mock p.2 "evt-1" JobStatus.completed
          (some capUrl) none none "t2")).map
      (fun p => (p.1.status, p.1.captions)) =
      .ok (JobStatus.completed, [capUrl, capUrl]) ∧
    [capUrl, capUrl] ≠ [capUrl] :=
  ⟨rfl, rfl, by decide⟩

/-- C8 (amended): the real implementation's `update_job_status` (Firestore
`ArrayUnion`) is idempotent — a second call with the same status and
asset URLs leaves the status and the `captions`/`images`/`videos` lists
exactly as after the first call, with the job stored under its key; the
mock implementation (plain `append`) appends duplicates instead (see the
counterexample). -/
theorem update_job_status_real_idempotent_spec (s : JobStore)
    (event_id : String) (st : JobStatus) (c i v : Option String)
    (now now2 : String) (job : Job) (h : s.get event_id = some job) :
    ∀ j1 s1, update_job_status_real s event_id st c i v now = .ok (j1, s1) →
    ∀ j2 s2, update_job_status_real s1 event_id st c i v now2 = .ok (j2, s2) →
      j2.status = j1.status ∧ j2.captions = j1.captions ∧
      j2.images = j1.images ∧ j2.videos = j1.videos ∧
      s2.get event_id = some j2 := by
  intro j1 s1 h1 j2 s2 h2
  simp [update_job_status_real, h] at h1
  obtain ⟨hj1, hs1⟩ := h1
  subst hs1
  subst hj1
  simp [update_job_status_real, get_setJob_self] at h2
  obtain ⟨hj2, hs2⟩ := h2
  subst hs2
  subst hj2
  refine ⟨?_, ?_, ?_, ?_, get_setJob_self _ _ _⟩ <;>
    rcases c with _ | uc <;> rcases i with _ | ui <;> rcases v with _ | uv <;>
      simp <;> split_ifs <;> simp [arrayUnion_idem]

/-- Witness for C8 (amended): two real-service updates with the same captions
URL on a concrete job leave the status and all three URL lists identical
to a single update (only `updated_at` moves). -/
theorem update_job_status_real_idempotent_spec_witness :
    ({ jobAfterRealUpdate with updated_at := "t2" } : Job).status =
      jobAfterRealUpdate.status ∧
    ({ jobAfterRealUpdate with updated_at := "t2" } : Job).captions =
      jobAfterRealUpdate.captions ∧
    ({ jobAfterRealUpdate with updated_at := "t2" } : Job).images =
      jobAfterRealUpdate.images ∧
    ({ jobAfterRealUpdate with updated_at := "t2" } : Job).videos =
      jobAfterRealUpdate.videos ∧
    JobStore.get [("evt-1", { jobAfterRealUpdate with updated_at := "t2" })]
      "evt-1" = some { jobAfterRealUpdate with updated_at := "t2" } :=
  update_job_status_real_idempotent_spec [("evt-1", sampleJob .processing)]
    "evt-1" .completed (some capUrl) none none "t1" "t2"
    (sampleJob .processing) rfl
    jobAfterRealUpdate [("evt-1", jobAfterRealUpdate)] rfl
    { jobAfterRealUpdate with updated_at := "t2" }
    [("evt-1", { jobAfterRealUpdate with updated_at := "t2" })] rfl

/-- C9: the URL validator is meant to accept only URLs whose host IS the
asset-storage domain, and its own comment reads "Verify it's from
storage.googleapis.com" — but the check is a bare `endswith` without a
dot boundary, so a URL on the foreign host `evilstorage.googleapis.com`
(scheme and bucket prefix crafted to match) passes validation and is
accepted into the outputs by the JSON extraction strategy. -/
theorem validate_gcs_url_host_suffix_acceptance :
    validate_gcs_url "promote-autonomy-assets"
      "https://evilstorage.googleapis.com/promote-autonomy-assets/image.png" =
      true ∧
    (urlparse
      "https://evilstorage.googleapis.com/promote-autonomy-assets/image.png").netloc =
      "evilstorage.googleapis.com" ∧
    "evilstorage.googleapis.com" ≠ "storage.googleapis.com" ∧
    (adkExtractOutputs "promote-autonomy-assets"
      [("image_url",
        "https://evilstorage.googleapis.com/promote-autonomy-assets/image.png")]).image_url =
      some "https://evilstorage.googleapis.com/promote-autonomy-assets/image.png" :=
  ⟨by decide, by decide, by decide, by decide⟩

/-- C10: for every duration accepted by `VideoTaskConfig` (4..600 s), the
duration actually sent to Veo is one of 4, 6 or 8 seconds — 4 when the
request is at most 5, 6 when it is 6 or 7, and 8 otherwise; the mapping
is monotone in the requested duration, and a 600-second request silently
yields an 8-second generation request. -/
theorem veoRequestedDuration_spec (d : Nat) (h : 4 ≤ d ∧ d ≤ 600) :
    (veoRequestedDuration d = 4 ∨ veoRequestedDuration d = 6 ∨
      veoRequestedDuration d = 8) ∧
    (d ≤ 5 → veoRequestedDuration d = 4) ∧
    ((d = 6 ∨ d = 7) → veoRequestedDuration d = 6) ∧
    (8 ≤ d → veoRequestedDuration d = 8) ∧
    (∀ d2, d ≤ d2 → veoRequestedDuration d ≤ veoRequestedDuration d2) ∧
    veoRequestedDuration 600 = 8 := by
  unfold veoRequestedDuration
  refine ⟨?_, ?_, ?_, ?_, ?_, ?_⟩
  · split_ifs
    · simp
    · simp
    · simp
  · intro hd; split_ifs
    all_goals omega
  · intro hd; split_ifs
    all_goals omega
  · intro hd; split_ifs
    all_goals omega
  · intro d2 hle; split_ifs
    all_goals omega
  · norm_num

/-- Witness for C10: a 600-second request is mapped to an 8-second Veo
request. -/
theorem veoRequestedDuration_spec_witness :
    veoRequestedDuration 600 = 8 :=
  (veoRequestedDuration_spec 600 (by norm_num)).2.2.2.2.2

end PromoteAutonomy
